import Mathlib

/-!
Shallow embedding of selected parts of the nanos6-argodsm runtime
(cluster execution workflow, locality scheduler, event counter API,
CPU idle management, MPI messenger mail check, dependency data), with
theorems checking the natural-language specification against the code.
-/

namespace Nanos6

/-- The word size of `size_t` on the target platform (64-bit). -/
def WSIZE : Nat := 2 ^ 64

/-- Wrapping subtraction on `size_t` values (`a -= b` in C++), for
`a < WSIZE`: computes `(a - b) mod 2^64`. -/
def wsub (a b : Nat) : Nat := (a + (WSIZE - b % WSIZE)) % WSIZE

theorem wsub_eq_sub (a b : Nat) (ha : a < WSIZE) (hba : b ≤ a) :
    wsub a b = a - b := by
  unfold wsub WSIZE at *
  omega

/-- A `DataAccessRegion`: a memory region `[start, start+size)`.
Addresses and sizes are modelled as natural numbers. -/
structure DataAccessRegion where
  startAddress : Nat
  size : Nat
deriving DecidableEq, Repr

/-- A `MemoryPlace`, as far as the data-link step inspects it: whether
its type is `nanos6_cluster_device`, and its index. -/
structure MemoryPlace where
  isClusterDevice : Bool
  index : Int
deriving DecidableEq, Repr

/-- `TaskOffloading::SatisfiabilityInfo` as built by
`ClusterDataLinkStep::linkRegion` (the `namespacePredecessor` field is
always sent as null there and is omitted). -/
structure SatisfiabilityInfo where
  region : DataAccessRegion
  locationIndex : Int
  readSat : Bool
  writeSat : Bool
  writeID : Nat
deriving DecidableEq, Repr

/-- The mutable state of an `ExecutionWorkflow::ClusterDataLinkStep`
(file `ExecutionWorkflowCluster.cpp`): the outstanding byte count
`_bytesToLink` (a `size_t`), the `_started` flag, the satisfiability
known at creation (`_read`, `_write`), the region `_region`, the write
ID `_writeID`, and the index of `_sourceMemoryPlace`. -/
structure ClusterDataLinkStep where
  bytesToLink : Nat
  started : Bool
  readSat : Bool
  writeSat : Bool
  region : DataAccessRegion
  writeID : Nat
  sourceIndex : Int
deriving DecidableEq, Repr

/-- Result of one `ClusterDataLinkStep::linkRegion` call: the updated
step state, the satisfiability message sent to the remote node, the
local `deleteStep` flag computed inside the critical section, and
whether the step object was actually deleted. -/
structure LinkRegionResult where
  step : ClusterDataLinkStep
  sentSat : SatisfiabilityInfo
  deleteStepFlag : Bool
  deleted : Bool
deriving DecidableEq, Repr

/-- `ClusterDataLinkStep::linkRegion` (ExecutionWorkflowCluster.cpp,
lines 24-99).  Computes the location index (−1 for a null location, the
current node for a non-cluster location), sends the satisfiability
message, subtracts the linked bytes from `_bytesToLink` (twice the
region size when both read and write are linked), and computes the
`deleteStep` flag when `_started` holds and the count reaches zero.
The self-deletion itself (`delete this`) is commented out in the
source, so `deleted` is always `false`. -/
def ClusterDataLinkStep.linkRegion (s : ClusterDataLinkStep)
    (currentNodeIndex : Int) (region : DataAccessRegion)
    (location : Option MemoryPlace) (writeID : Nat)
    (read write : Bool) : LinkRegionResult :=
  let locationIndex : Int :=
    match location with
    | none => -1
    | some loc => if loc.isClusterDevice then loc.index else currentNodeIndex
  let satInfo : SatisfiabilityInfo :=
    { region := region, locationIndex := locationIndex,
      readSat := read, writeSat := write, writeID := writeID }
  let linkedBytes : Nat := if read && write then 2 * region.size else region.size
  let bytesAfter : Nat := wsub s.bytesToLink linkedBytes
  let deleteStep : Bool := s.started && (bytesAfter == 0)
  { step := { s with bytesToLink := bytesAfter },
    sentSat := satInfo,
    deleteStepFlag := deleteStep,
    deleted := false }

/-- Result of `ClusterDataLinkStep::start`: the updated step state, the
data-link record pushed onto the execution step via `addDataLink`, and
whether successors were released and the step deleted. -/
structure LinkStartResult where
  step : ClusterDataLinkStep
  dataLink : SatisfiabilityInfo
  releasedSuccessors : Bool
  deleted : Bool
deriving DecidableEq, Repr

/-- `ClusterDataLinkStep::start` (ExecutionWorkflowCluster.cpp, lines
101-158).  Pushes the gathered satisfiability to the execution step;
if the access was both read and write satisfied at offload the step is
deleted at once, otherwise it subtracts the region's bytes, sets
`_started`, and leaves deletion to later `linkRegion` calls. -/
def ClusterDataLinkStep.start (s : ClusterDataLinkStep) : LinkStartResult :=
  let location : Int := if s.readSat || s.writeSat then s.sourceIndex else -1
  let dataLink : SatisfiabilityInfo :=
    { region := s.region, locationIndex := location,
      readSat := s.readSat, writeSat := s.writeSat, writeID := s.writeID }
  if s.readSat && s.writeSat then
    { step := s, dataLink := dataLink, releasedSuccessors := true, deleted := true }
  else
    { step := { s with bytesToLink := wsub s.bytesToLink s.region.size, started := true },
      dataLink := dataLink, releasedSuccessors := true, deleted := false }

/-- `CPUDependencyData::TaskAndRegion` (CPUDependencyData.hpp): a task
pointer paired with a region. -/
structure TaskAndRegion where
  task : Nat
  region : DataAccessRegion
deriving DecidableEq, Repr

/-- `TaskAndRegion::operator==` (CPUDependencyData.hpp, lines 125-128):
`(_task == other._task) && (_region == other._region)`. -/
def TaskAndRegion.opEq (a b : TaskAndRegion) : Bool :=
  (a.task == b.task) && (a.region == b.region)

/-- `TaskAndRegion::operator!=` (CPUDependencyData.hpp, lines 129-132):
its body is `(_task == other._task) && (_region == other._region)` —
the same conjunction as `operator==`, not its negation. -/
def TaskAndRegion.opNe (a b : TaskAndRegion) : Bool :=
  (a.task == b.task) && (a.region == b.region)

/-- The inner loop of `std::max_element(first, last)` specialised to a
`std::vector<size_t>`: walk the remaining elements with the current
index `i`, the best index `bi` and the best value `bv`, moving the best
iterator only on a strictly greater element (so the first occurrence of
the maximum wins). -/
def scanMaxIdx : List Nat → Nat → Nat → Nat → Nat
  | [], _, bi, _ => bi
  | x :: xs, i, bi, bv =>
    if bv < x then scanMaxIdx xs (i + 1) i x else scanMaxIdx xs (i + 1) bi bv

/-- `std::distance(bytes.begin(), std::max_element(bytes.begin(), bytes.end()))`:
the index of the first occurrence of the maximum (0 on an empty vector,
where `max_element` returns `end`, a case the source excludes by an
assert). -/
def maxElementIdx : List Nat → Nat
  | [] => 0
  | x :: xs => scanMaxIdx xs 1 0 x

/-- `std::adjacent_find(begin, end, std::not_equal_to<>()) == end`:
true exactly when no two adjacent elements differ. -/
def adjacentAllEqual : List Nat → Bool
  | [] => true
  | [_] => true
  | a :: b :: rest => a == b && adjacentAllEqual (b :: rest)

/-- Return value of `ClusterLocalityScheduler::getScheduledNode`: either
`nanos6_cluster_no_offload` or a target node index. -/
inductive SchedTarget where
  | noOffload
  | node (idx : Nat)
deriving DecidableEq, Repr

/-- The decision logic of `ClusterLocalityScheduler::getScheduledNode`
(src/unnamed/part_001, lines 114-154), after the per-access loop has
produced the per-node byte counts `bytes`, the first-touch deficit
`ftBytes` and the `canBeOffloaded` flag.  `localityTuning` is the
`argodsm.locality_tuning` configuration value (a C++ `double`, modelled
as a rational), and `nextFtNode` is the value `getNextFtNode()` would
return (that helper is defined outside the provided sources; per the
spec it is a round-robin over the nodes, so it returns a valid node
index). -/
def getScheduledNode (canBeOffloaded : Bool) (bytes : List Nat)
    (ftBytes : Nat) (localityTuning : ℚ) (nextFtNode : Nat) : SchedTarget :=
  if !canBeOffloaded then SchedTarget.noOffload
  else
    let maxBytes : Nat := bytes.getD (maxElementIdx bytes) 0
    if (ftBytes : ℚ) > localityTuning * (maxBytes : ℚ) then
      SchedTarget.node nextFtNode
    else if adjacentAllEqual bytes then
      SchedTarget.node nextFtNode
    else
      SchedTarget.node (maxElementIdx bytes)

/-- The idle-CPU bookkeeping of `DefaultCPUManagerImplementation`:
the `_idleCPUs` bitset and the `_numIdleCPUs` counter, both protected by
`_idleCPUsLock`. -/
structure IdleCPUsState where
  idleCPUs : List Bool
  numIdleCPUs : Nat
deriving DecidableEq, Repr

/-- `DefaultCPUManagerImplementation::cpuBecomesIdle` (src/unnamed/
part_018, lines 209-239), modelled as a single atomic transition (the
whole body runs under one acquisition of `_idleCPUsLock`).
`hasAvailableWork` is the value `Scheduler::hasAvailableWork(cpu)`
returns under that lock.  Returns the updated state and the boolean
result. -/
def cpuBecomesIdle (s : IdleCPUsState) (index : Nat)
    (hasAvailableWork : Bool) : IdleCPUsState × Bool :=
  if hasAvailableWork then
    (s, false)
  else
    ({ idleCPUs := s.idleCPUs.set index true,
       numIdleCPUs := s.numIdleCPUs + 1 }, true)

/-- Task state relevant to the event-counter API: the release counter
and the `released` flag. -/
structure TaskReleaseState where
  releaseCount : Nat
  released : Bool
deriving DecidableEq, Repr

/-- Modelled from the spec: `Task::decreaseReleaseCount` (declared in
Task.hpp, which is not among the provided sources).  Per the spec's
release-counter contract, it decrements the counter and reports whether
it reached zero. -/
def decreaseReleaseCount (t : TaskReleaseState) (n : Nat) :
    TaskReleaseState × Bool :=
  let c := t.releaseCount - n
  ({ t with releaseCount := c }, c == 0)

/-- Modelled from the spec: `Task::markAsReleased` (declared in
Task.hpp, which is not among the provided sources).  Per the spec it is
a compare-and-swap of the `released` flag from false to true, returning
whether the CAS succeeded. -/
def markAsReleased (t : TaskReleaseState) : TaskReleaseState × Bool :=
  if t.released then (t, false) else ({ t with released := true }, true)

/-- Observable outcome of one `nanos6_decrease_task_event_counter`
call: the final task state, whether the task's data accesses were
unregistered (and `taskFinished` run), and whether
`TaskFinalization::disposeTask` was invoked. -/
structure EventCounterOutcome where
  task : TaskReleaseState
  unregisteredAccesses : Bool
  disposed : Bool
deriving DecidableEq, Repr

/-- `nanos6_decrease_task_event_counter` (src/unnamed/part_004, lines
44-89): a zero decrement returns immediately; otherwise, when
`decreaseReleaseCount` reports zero, the accesses are unregistered,
`taskFinished` runs, and the task is disposed exactly when
`markAsReleased()` returns true. -/
def nanos6DecreaseTaskEventCounter (t : TaskReleaseState)
    (decrement : Nat) : EventCounterOutcome :=
  if decrement == 0 then
    { task := t, unregisteredAccesses := false, disposed := false }
  else
    let r1 := decreaseReleaseCount t decrement
    if r1.2 then
      let r2 := markAsReleased r1.1
      { task := r2.1, unregisteredAccesses := true, disposed := r2.2 }
    else
      { task := r1.1, unregisteredAccesses := false, disposed := false }

/-- State of an `ExecutionWorkflow::ClusterDataCopyStep` as inspected
by `requiresDataFetch`: the `_needsTransfer`, `_isTaskwait` and
`_isWeak` flags, the value `WriteIDManager::checkWriteIDLocal(_writeID,
_fullRegion)` returns (that manager is defined outside the provided
sources; only its boolean answer is inspected), and whether the
pending-transfer queue holds a transfer targeting this node that fully
contains `_fullRegion`. -/
structure ClusterDataCopyStepState where
  needsTransfer : Bool
  isTaskwait : Bool
  isWeak : Bool
  writeIDIsLocal : Bool
  pendingTransferContainsRegion : Bool
deriving DecidableEq, Repr

/-- Observable outcome of `ClusterDataCopyStep::requiresDataFetch`:
the returned boolean (true means the caller must issue the data
transfer), whether the task's access location was updated, whether the
successors were released, whether the step destroyed itself, and
whether a completion callback was registered on a pending transfer. -/
structure DataFetchOutcome where
  fetchRequired : Bool
  updatedLocation : Bool
  releasedSuccessors : Bool
  deleted : Bool
  registeredCallback : Bool
deriving DecidableEq, Repr

/-- `ClusterDataCopyStep::requiresDataFetch`
(ExecutionWorkflowCluster.cpp, lines 219-301). -/
def requiresDataFetch (s : ClusterDataCopyStepState) : DataFetchOutcome :=
  if !s.needsTransfer then
    { fetchRequired := false,
      updatedLocation := !s.isTaskwait && !s.isWeak,
      releasedSuccessors := true, deleted := true, registeredCallback := false }
  else if s.writeIDIsLocal then
    { fetchRequired := false, updatedLocation := false,
      releasedSuccessors := true, deleted := true, registeredCallback := false }
  else if s.pendingTransferContainsRegion then
    { fetchRequired := false, updatedLocation := false,
      releasedSuccessors := false, deleted := false, registeredCallback := true }
  else
    { fetchRequired := true, updatedLocation := false,
      releasedSuccessors := false, deleted := false, registeredCallback := false }

/-- The scheduler hints of `Scheduler::addReadyTask`, as used by
`HostExecutionStep::start`. -/
inductive ReadyTaskHint where
  | none
  | busyComputePlace
  | unblocked
deriving DecidableEq, Repr

/-- Worker-thread context observed by `HostExecutionStep::start`:
whether `WorkerThread::getCurrentWorkerThread()` is non-null, whether
that thread's compute place is non-null, and whether the thread has an
assigned task. -/
structure WorkerContext where
  hasCurrentThread : Bool
  threadHasCPU : Bool
  threadHasTask : Bool
deriving DecidableEq, Repr

/-- Observable outcome of `HostExecutionStep::start`: whether the task
body ran inline, whether the step recorded itself as the task's
execution step, the scheduler enqueue (if any) with its hint, and
whether successors were released and the step deleted. -/
structure HostStartOutcome where
  ranBodyInline : Bool
  setExecutionStep : Bool
  enqueued : Option ReadyTaskHint
  releasedSuccessors : Bool
  deleted : Bool
deriving DecidableEq, Repr

/-- `HostExecutionStep::start` (ExecutionWorkflowHost.cpp, lines
29-117).  Outside a worker-thread context (no current worker thread,
or no CPU, or no assigned task) the step records itself as the task's
execution step and re-enqueues the task with the busy-compute-place
hint; otherwise it runs the task body inline (when the task has code),
releases the successors and deletes itself. -/
def hostExecutionStepStart (ctx : WorkerContext) (taskHasCode : Bool) :
    HostStartOutcome :=
  if !ctx.hasCurrentThread || !(ctx.hasCurrentThread && ctx.threadHasCPU)
      || !ctx.threadHasTask then
    { ranBodyInline := false, setExecutionStep := true,
      enqueued := some ReadyTaskHint.busyComputePlace,
      releasedSuccessors := false, deleted := false }
  else
    { ranBodyInline := taskHasCode, setExecutionStep := false,
      enqueued := none, releasedSuccessors := true, deleted := true }

/-- A probed incoming MPI message, as far as `MPIMessenger::checkMail`
inspects it: the MPI tag and the source rank. -/
structure ProbedMessage where
  tag : Nat
  source : Nat
deriving DecidableEq, Repr

/-- Observable outcome of `MPIMessenger::checkMail`: whether an
`MPI_Recv` was posted, and the type byte of the dispatched message (the
factory creates the message from `type = status.MPI_TAG & 0xff`), when
one was returned. -/
structure CheckMailOutcome where
  receivedMessage : Bool
  dispatchedType : Option Nat
deriving DecidableEq, Repr

/-- `MPIMessenger::checkMail` (MPIMessenger.cpp, lines 253-292),
parametrised by the numeric value of the `DATA_RAW` message type (the
`MessageType` enum is defined outside the provided sources).  `probe`
is the result of `MPI_Iprobe`: `none` when no message is pending.  A
pending message whose low-order tag byte equals `DATA_RAW` is left for
`fetchData` to match: checkMail returns null without receiving it. -/
def checkMail (dataRawType : Nat) (probe : Option ProbedMessage) :
    CheckMailOutcome :=
  match probe with
  | none => { receivedMessage := false, dispatchedType := none }
  | some p =>
    let msgType := Nat.land p.tag 255
    if msgType == dataRawType then
      { receivedMessage := false, dispatchedType := none }
    else
      { receivedMessage := true, dispatchedType := some msgType }

/-- Concrete `ClusterDataLinkStep` used to exhibit the disabled
self-deletion in `linkRegion`: a step created for a read-satisfied
8-byte access with 16 bytes left to link. -/
def linkStepC1 : ClusterDataLinkStep :=
  { bytesToLink := 16, started := false, readSat := true, writeSat := false,
    region := { startAddress := 4096, size := 8 }, writeID := 1, sourceIndex := 0 }

/-- The `linkRegion` call on `linkStepC1` after `start` has run: it
links the remaining 8 bytes (read satisfiability), bringing
`_bytesToLink` to zero. -/
def linkResultC1 : LinkRegionResult :=
  ClusterDataLinkStep.linkRegion (ClusterDataLinkStep.start linkStepC1).step
    0 { startAddress := 4096, size := 8 }
    (some { isClusterDevice := true, index := 2 }) 5 true false

/-- Concrete `ClusterDataLinkStep` with 10 outstanding bytes, used to
instantiate the byte-accounting theorem. -/
def linkStepC9 : ClusterDataLinkStep :=
  { bytesToLink := 10, started := false, readSat := false, writeSat := false,
    region := { startAddress := 0, size := 0 }, writeID := 0, sourceIndex := 0 }

section Lemmas

/-- If every remaining element is at most the current best value, the
`max_element` scan keeps the current best index. -/
theorem scanMaxIdx_all_le (xs : List Nat) : ∀ i bi bv,
    (∀ k, k < xs.length → xs.getD k 0 ≤ bv) →
    scanMaxIdx xs i bi bv = bi := by
  induction xs with
  | nil => intro i bi bv _; rfl
  | cons x xs ih =>
    intro i bi bv h
    have hx : x ≤ bv := by simpa using h 0 (by simp)
    simp only [scanMaxIdx, if_neg (not_lt.mpr hx)]
    exact ih (i + 1) bi bv (fun k hk => by
      simpa using h (k + 1) (by simpa using Nat.succ_lt_succ hk))

/-- If position `j` of the remaining elements holds a value strictly
greater than the current best and than every earlier remaining element,
and at least as large as every later one, the scan lands on it. -/
theorem scanMaxIdx_first_max (xs : List Nat) : ∀ j bv, j < xs.length →
    bv < xs.getD j 0 →
    (∀ k, k < j → xs.getD k 0 < xs.getD j 0) →
    (∀ k, j < k → k < xs.length → xs.getD k 0 ≤ xs.getD j 0) →
    ∀ i bi, scanMaxIdx xs i bi bv = i + j := by
  induction xs with
  | nil => intro j bv hj; simp at hj
  | cons x xs ih =>
    intro j bv hj hgt hbefore hafter i bi
    match j with
    | 0 =>
      have hx : bv < x := by simpa using hgt
      simp only [scanMaxIdx, if_pos hx]
      rw [scanMaxIdx_all_le xs (i + 1) i x (fun k hk => by
        simpa using hafter (k + 1) (Nat.succ_pos k)
          (by simpa using Nat.succ_lt_succ hk))]
      omega
    | j' + 1 =>
      have hj' : j' < xs.length := by simpa using hj
      have hgtx : x < xs.getD j' 0 := by simpa using hbefore 0 (Nat.succ_pos j')
      have hb' : ∀ k, k < j' → xs.getD k 0 < xs.getD j' 0 := fun k hk => by
        simpa using hbefore (k + 1) (Nat.succ_lt_succ hk)
      have ha' : ∀ k, j' < k → k < xs.length → xs.getD k 0 ≤ xs.getD j' 0 :=
        fun k h1 h2 => by
          simpa using hafter (k + 1) (Nat.succ_lt_succ h1)
            (by simpa using Nat.succ_lt_succ h2)
      by_cases hbx : bv < x
      · simp only [scanMaxIdx, if_pos hbx]
        rw [ih j' x hj' hgtx hb' ha' (i + 1) i]
        omega
      · simp only [scanMaxIdx, if_neg hbx]
        have hbv' : bv < xs.getD j' 0 := by simpa using hgt
        rw [ih j' bv hj' hbv' hb' ha' (i + 1) bi]
        omega

/-- `max_element` returns the first index attaining the maximum. -/
theorem maxElementIdx_first_max (l : List Nat) (K : Nat)
    (hK : K < l.length)
    (hbefore : ∀ k, k < K → l.getD k 0 < l.getD K 0)
    (hafter : ∀ k, k < l.length → l.getD k 0 ≤ l.getD K 0) :
    maxElementIdx l = K := by
  match l, hK with
  | x :: xs, hK =>
    match K with
    | 0 =>
      show scanMaxIdx xs 1 0 x = 0
      exact scanMaxIdx_all_le xs 1 0 x (fun k hk => by
        simpa using hafter (k + 1) (by simpa using Nat.succ_lt_succ hk))
    | K' + 1 =>
      show scanMaxIdx xs 1 0 x = K' + 1
      have hK' : K' < xs.length := by simpa using hK
      have hgt : x < xs.getD K' 0 := by simpa using hbefore 0 (Nat.succ_pos K')
      have hb' : ∀ k, k < K' → xs.getD k 0 < xs.getD K' 0 := fun k hk => by
        simpa using hbefore (k + 1) (Nat.succ_lt_succ hk)
      have ha' : ∀ k, K' < k → k < xs.length → xs.getD k 0 ≤ xs.getD K' 0 :=
        fun k _ h2 => by
          simpa using hafter (k + 1) (by simpa using Nat.succ_lt_succ h2)
      rw [scanMaxIdx_first_max xs K' x hK' hgt hb' ha' 1 0]
      omega

/-- When `adjacent_find` with `not_equal_to` finds nothing, every
element equals the first one. -/
theorem adjacentAllEqual_all_eq (l : List Nat)
    (h : adjacentAllEqual l = true) :
    ∀ k, k < l.length → l.getD k 0 = l.getD 0 0 := by
  induction l with
  | nil => intro k hk; simp at hk
  | cons a l ih =>
    rcases l with _ | ⟨b, rest⟩
    · intro k hk
      match k with
      | 0 => rfl
    · have hab : a = b := by
        have := h
        simp only [adjacentAllEqual, Bool.and_eq_true, beq_iff_eq] at this
        exact this.1
      have htail : adjacentAllEqual (b :: rest) = true := by
        simp only [adjacentAllEqual, Bool.and_eq_true] at h
        exact h.2
      intro k hk
      match k with
      | 0 => rfl
      | k' + 1 =>
        have := ih htail k' (by simpa using hk)
        simpa [hab] using this

end Lemmas

/-- Claim C1 (counterexample): after `ClusterDataLinkStep::start` ran
without deleting the step (read-only satisfiability at offload, so
`_started` is set), the `linkRegion` call that brings `_bytesToLink` to
zero computes the `deleteStep` flag but does NOT delete the step: the
`delete this` in `linkRegion` is commented out in the source
(ExecutionWorkflowCluster.cpp, line 97). -/
theorem clusterDataLinkStep_linkRegion_zero_not_deleted :
    (ClusterDataLinkStep.start linkStepC1).step.started = true ∧
    linkResultC1.step.bytesToLink = 0 ∧
    linkResultC1.deleteStepFlag = true ∧
    linkResultC1.deleted = false := by
  decide

/-- Claim C1 (amended): `linkRegion` computes the `deleteStep` flag
exactly when the step has started and the outstanding byte count
reaches zero, but it never deletes the step — the self-deletion in
`linkRegion` is disabled (commented out) in the source because the
byte counting is unreliable when read satisfiability arrives twice. -/
theorem clusterDataLinkStep_linkRegion_flag_iff (s : ClusterDataLinkStep)
    (cur : Int) (region : DataAccessRegion) (loc : Option MemoryPlace)
    (wid : Nat) (read write : Bool) :
    ((ClusterDataLinkStep.linkRegion s cur region loc wid read write).deleteStepFlag
        = true ↔
      (s.started = true ∧
        (ClusterDataLinkStep.linkRegion s cur region loc wid read write).step.bytesToLink
          = 0)) ∧
    (ClusterDataLinkStep.linkRegion s cur region loc wid read write).deleted
      = false := by
  simp [ClusterDataLinkStep.linkRegion, Bool.and_eq_true, beq_iff_eq]

/-- Claim C2: for an offloadable task whose per-node touched-byte
counts have a unique maximum at node `K`, with the first-touch deficit
at most `locality_tuning` times that maximum, the locality scheduler
selects node `K`.  (`nextFtNode` is the round-robin helper's answer; as
a round-robin over the nodes it yields a valid node index, which only
matters on a one-node cluster.) -/
theorem getScheduledNode_unique_max (bytes : List Nat) (ftBytes : Nat)
    (tuning : ℚ) (nextFtNode : Nat) (K : Nat)
    (hK : K < bytes.length)
    (hmax : ∀ k, k < bytes.length → k ≠ K → bytes.getD k 0 < bytes.getD K 0)
    (hnext : nextFtNode < bytes.length)
    (hft : (ftBytes : ℚ) ≤ tuning * (bytes.getD K 0 : ℚ)) :
    getScheduledNode true bytes ftBytes tuning nextFtNode = SchedTarget.node K := by
  have hidx : maxElementIdx bytes = K :=
    maxElementIdx_first_max bytes K hK
      (fun k hk => hmax k (hk.trans hK) (Nat.ne_of_lt hk))
      (fun k hk => by
        by_cases hkK : k = K
        · rw [hkK]
        · exact le_of_lt (hmax k hk hkK))
  simp only [getScheduledNode, Bool.not_true, Bool.false_eq_true, if_false, hidx]
  rw [if_neg (not_lt.mpr hft)]
  by_cases heq : adjacentAllEqual bytes = true
  · rw [if_pos heq]
    have hall := adjacentAllEqual_all_eq bytes heq
    have hlen : bytes.length = 1 := by
      by_contra hlen1
      have h2 : 2 ≤ bytes.length := by omega
      by_cases hK0 : K = 0
      · have h1lt : 1 < bytes.length := by omega
        have hlt := hmax 1 h1lt (by omega)
        rw [hall 1 h1lt, hall K hK] at hlt
        exact lt_irrefl _ hlt
      · have h0lt : 0 < bytes.length := by omega
        have hlt := hmax 0 h0lt (by omega)
        rw [hall K hK] at hlt
        exact lt_irrefl _ hlt
    have hK0 : K = 0 := by omega
    have hn0 : nextFtNode = 0 := by omega
    rw [hK0, hn0]
  · rw [if_neg heq]

/-- Claim C3 (counterexample): with per-node byte counts `[5, 5, 3]`
(nodes 0 and 1 tie for the greatest count, node 2 has fewer) and a
first-touch deficit of 0 (below any threshold with tuning 1), the
scheduler returns node 0 — the lowest-indexed tied node — regardless of
what the round-robin helper would return (shown for helper answers 1
and 2), so the tie is NOT broken by round-robin. -/
theorem getScheduledNode_partial_tie_picks_lowest :
    getScheduledNode true [5, 5, 3] 0 1 1 = SchedTarget.node 0 ∧
    getScheduledNode true [5, 5, 3] 0 1 2 = SchedTarget.node 0 := by
  constructor <;>
    norm_num [getScheduledNode, maxElementIdx, scanMaxIdx, adjacentAllEqual]

/-- Claim C3 (amended): the round-robin helper is consulted only when
ALL per-node byte counts are exactly equal; whenever the counts are not
all equal (in particular when only a proper subset of nodes ties for
the maximum) and the first-touch deficit is below threshold, the
scheduler deterministically picks the lowest-indexed node attaining the
maximum count. -/
theorem getScheduledNode_tie_lowest_indexed (bytes : List Nat) (ftBytes : Nat)
    (tuning : ℚ) (nextFtNode : Nat) (K : Nat)
    (hK : K < bytes.length)
    (hbefore : ∀ k, k < K → bytes.getD k 0 < bytes.getD K 0)
    (hafter : ∀ k, k < bytes.length → bytes.getD k 0 ≤ bytes.getD K 0)
    (hne : adjacentAllEqual bytes = false)
    (hft : (ftBytes : ℚ) ≤ tuning * (bytes.getD K 0 : ℚ)) :
    getScheduledNode true bytes ftBytes tuning nextFtNode = SchedTarget.node K := by
  have hidx : maxElementIdx bytes = K :=
    maxElementIdx_first_max bytes K hK hbefore hafter
  simp only [getScheduledNode, Bool.not_true, Bool.false_eq_true, if_false, hidx]
  rw [if_neg (not_lt.mpr hft), if_neg (by simp [hne])]

/-- Witness for claim C2 at a concrete input: counts `[3, 7, 2]` with
the unique maximum on node 1 and deficit 5 ≤ 1·7 select node 1. -/
theorem getScheduledNode_unique_max_witness :
    getScheduledNode true [3, 7, 2] 5 1 2 = SchedTarget.node 1 :=
  getScheduledNode_unique_max [3, 7, 2] 5 1 2 1 (by decide)
    (by decide) (by decide)
    (by norm_num [List.getD_cons_succ, List.getD_cons_zero])

/-- Witness for the amended claim C3 at a concrete input: counts
`[4, 9, 9]` (nodes 1 and 2 tie) select node 1, the lowest tied index. -/
theorem getScheduledNode_tie_lowest_indexed_witness :
    getScheduledNode true [4, 9, 9] 0 1 2 = SchedTarget.node 1 :=
  getScheduledNode_tie_lowest_indexed [4, 9, 9] 0 1 2 1 (by decide)
    (by decide) (by decide) (by decide)
    (by norm_num [List.getD_cons_succ, List.getD_cons_zero])

/-- Claim C4: on the event-counter decrement path, the task's accesses
are unregistered exactly when a nonzero decrement brings the release
counter to zero, and the task is disposed exactly when, in addition,
the `markAsReleased` CAS succeeds (the `released` flag was still
false). -/
theorem decreaseTaskEventCounter_dispose_iff (t : TaskReleaseState) (d : Nat) :
    ((nanos6DecreaseTaskEventCounter t d).unregisteredAccesses = true ↔
      (d ≠ 0 ∧ t.releaseCount - d = 0)) ∧
    ((nanos6DecreaseTaskEventCounter t d).disposed = true ↔
      (d ≠ 0 ∧ t.releaseCount - d = 0 ∧ t.released = false)) := by
  unfold nanos6DecreaseTaskEventCounter decreaseReleaseCount markAsReleased
  by_cases hd : d = 0 <;> by_cases hz : t.releaseCount - d = 0 <;>
    by_cases hr : t.released <;> simp [hd, hz, hr]

/-- Claim C5: `cpuBecomesIdle` (one atomic step under the idle-set
lock): when the scheduler reports available work it returns false and
leaves the idle bitmap and count unchanged; otherwise it sets the CPU's
bit, increments the idle count, and returns true. -/
theorem cpuBecomesIdle_spec (s : IdleCPUsState) (index : Nat) :
    cpuBecomesIdle s index true = (s, false) ∧
    cpuBecomesIdle s index false =
      ({ idleCPUs := s.idleCPUs.set index true,
         numIdleCPUs := s.numIdleCPUs + 1 }, true) :=
  ⟨rfl, rfl⟩

/-- Claim C6: for a copy step that needs a transfer, when the local
node already holds the region's WriteID, `requiresDataFetch` issues no
transfer: it releases the successors, destroys the step and returns
false (and does not touch the access location or register a
callback). -/
theorem requiresDataFetch_writeIDLocal_no_fetch (s : ClusterDataCopyStepState)
    (hneeds : s.needsTransfer = true) (hlocal : s.writeIDIsLocal = true) :
    requiresDataFetch s =
      { fetchRequired := false, updatedLocation := false,
        releasedSuccessors := true, deleted := true,
        registeredCallback := false } := by
  simp [requiresDataFetch, hneeds, hlocal]

/-- Witness for claim C6 at a concrete step state. -/
theorem requiresDataFetch_writeIDLocal_no_fetch_witness :
    requiresDataFetch
        { needsTransfer := true, isTaskwait := false, isWeak := false,
          writeIDIsLocal := true, pendingTransferContainsRegion := false } =
      { fetchRequired := false, updatedLocation := false,
        releasedSuccessors := true, deleted := true,
        registeredCallback := false } :=
  requiresDataFetch_writeIDLocal_no_fetch _ rfl rfl

/-- Claim C7: invoked outside a worker-thread context (no current
worker thread, or no CPU, or no assigned task), `HostExecutionStep::start`
does not run the task body inline: it records itself as the task's
execution step and re-enqueues the task with the busy-compute-place
hint, then returns without releasing successors or deleting itself. -/
theorem hostExecutionStepStart_outside_worker (ctx : WorkerContext)
    (taskHasCode : Bool)
    (h : ctx.hasCurrentThread = false ∨ ctx.threadHasCPU = false ∨
      ctx.threadHasTask = false) :
    hostExecutionStepStart ctx taskHasCode =
      { ranBodyInline := false, setExecutionStep := true,
        enqueued := some ReadyTaskHint.busyComputePlace,
        releasedSuccessors := false, deleted := false } := by
  rcases h with h | h | h <;> simp [hostExecutionStepStart, h]

/-- Witness for claim C7: no current worker thread at all. -/
theorem hostExecutionStepStart_outside_worker_witness :
    hostExecutionStepStart
        { hasCurrentThread := false, threadHasCPU := false,
          threadHasTask := false } true =
      { ranBodyInline := false, setExecutionStep := true,
        enqueued := some ReadyTaskHint.busyComputePlace,
        releasedSuccessors := false, deleted := false } :=
  hostExecutionStepStart_outside_worker _ true (Or.inl rfl)

/-- Claim C8: `checkMail` never returns a DATA_RAW message: a probed
message whose low-order tag byte equals `DATA_RAW` makes `checkMail`
return null without posting a receive or dispatching anything. -/
theorem checkMail_dataRaw_returns_null (dataRawType : Nat)
    (p : ProbedMessage) (h : Nat.land p.tag 255 = dataRawType) :
    checkMail dataRawType (some p) =
      { receivedMessage := false, dispatchedType := none } := by
  simp [checkMail, h]

/-- Witness for claim C8: tag 265 has low byte 9; with `DATA_RAW = 9`
the probed message is left unreceived. -/
theorem checkMail_dataRaw_returns_null_witness :
    checkMail 9 (some { tag := 265, source := 3 }) =
      { receivedMessage := false, dispatchedType := none } :=
  checkMail_dataRaw_returns_null 9 { tag := 265, source := 3 } (by decide)

/-- Claim C9: every `linkRegion` call decreases `_bytesToLink` by
exactly twice the region size when both read and write satisfiability
are linked, and by exactly the region size otherwise (stated for counts
within `size_t` range and without underflow, so the wrapping
subtraction is an exact decrement). -/
theorem linkRegion_decrement_exact (s : ClusterDataLinkStep) (cur : Int)
    (region : DataAccessRegion) (loc : Option MemoryPlace) (wid : Nat)
    (read write : Bool) (hs : s.bytesToLink < WSIZE)
    (hle : (if read && write then 2 * region.size else region.size) ≤
      s.bytesToLink) :
    (ClusterDataLinkStep.linkRegion s cur region loc wid read write).step.bytesToLink +
      (if read && write then 2 * region.size else region.size) =
      s.bytesToLink := by
  simp only [ClusterDataLinkStep.linkRegion]
  rw [wsub_eq_sub _ _ hs hle]
  omega

/-- Witness for claim C9: linking a 3-byte region both read and write
removes exactly 6 of the 10 outstanding bytes. -/
theorem linkRegion_decrement_exact_witness :
    (ClusterDataLinkStep.linkRegion linkStepC9 0 { startAddress := 0, size := 3 }
        none 0 true true).step.bytesToLink + 2 * 3 = 10 :=
  linkRegion_decrement_exact linkStepC9 0 { startAddress := 0, size := 3 }
    none 0 true true (by decide) (by decide)

/-- Claim C10: for every pair of `TaskAndRegion` values, `operator!=`
returns true exactly when `operator==` returns true (both compute the
same conjunction of member equalities), so `operator!=` is not the
negation of `operator==` (exhibited on a pair of equal values). -/
theorem taskAndRegion_opNe_eq_opEq :
    (∀ a b : TaskAndRegion, TaskAndRegion.opNe a b = TaskAndRegion.opEq a b) ∧
    TaskAndRegion.opNe
        { task := 0, region := { startAddress := 0, size := 0 } }
        { task := 0, region := { startAddress := 0, size := 0 } } = true ∧
    (!TaskAndRegion.opEq
        { task := 0, region := { startAddress := 0, size := 0 } }
        { task := 0, region := { startAddress := 0, size := 0 } }) = false :=
  ⟨fun _ _ => rfl, by decide, by decide⟩

end Nanos6
